import Mathlib

/-!
Shallow embedding of `src/set_nasa_apod_wallpaper.py`.

The script is a single linear pipeline: fetch the APOD metadata, check a
local cache directory, download the image, write image/description/symlink,
and invoke an external wallpaper script.  We embed it as a pure function
from an `Env` (the oracles for everything external: API key presence,
filesystem existence checks, network responses) to a `RunOutcome`: the list
of observable side effects (`Event`s), in program order, together with the
process exit code.  Python `exit(1)` and an uncaught exception both
terminate the interpreter with a non-zero status; both are modelled as
`exit_code = 1` with the trace cut at the point of the raise.
-/

namespace Apod

/-- Python `dict.get(key, "")` over a string-valued dictionary
(`dict[str, str]`, the annotation on `ImageListing.from_api_resp_json`),
modelled as an association list; keys of a Python dict are unique, so
first-match lookup agrees with dict lookup. -/
def dictGet (d : List (String × String)) (k : String) : String :=
  match d.lookup k with
  | some v => v
  | none => ""

/-- The `ImageListing` class: the fields assigned by
`from_api_resp_json` (lines 27-32 of the source). -/
structure ImageListing where
  date : String
  explanation : String
  media_type : String
  title : String
  url : String
deriving DecidableEq, Repr

/-- Method `from_api_resp_json`: every field is `json.get(key, "")`;
note `url` is populated from the `"hdurl"` key.  `__init__` just calls this,
so construction from any dictionary is total. -/
def ImageListing.from_api_resp_json (json : List (String × String)) : ImageListing :=
  { date := dictGet json "date"
    explanation := dictGet json "explanation"
    media_type := dictGet json "media_type"
    title := dictGet json "title"
    url := dictGet json "hdurl" }

/-- Property `is_image`: `self.media_type == "image"`. -/
def ImageListing.is_image (l : ImageListing) : Bool :=
  l.media_type == "image"

/-- Python `str.split(sep)` on a single-character separator, at the level
of character lists: every occurrence of the separator splits, empty pieces
are kept, and `"".split(sep) == [""]`. -/
def splitChar (c : Char) : List Char → List (List Char)
  | [] => [[]]
  | a :: as =>
    let r := splitChar c as
    if a == c then [] :: r
    else
      match r with
      | [] => [[a]]
      | h :: t => (a :: h) :: t

/-- Python `s.split(sep)` for a one-character `sep`, as strings. -/
def pySplit (s : String) (sep : Char) : List String :=
  (splitChar sep s.data).map String.mk

/-- Boolean list-prefix test (Python `startswith`, and the building block
for path-ancestor reasoning below). -/
def chListPre : List Char → List Char → Bool
  | [], _ => true
  | _ :: _, [] => false
  | a :: as, b :: bs => a == b && chListPre as bs

/-- Property `save_name`: `self.url.split("/")[-1]` then
`f"{self.date}_{remote_file_name}"`.  `split` never returns an empty list,
so `[-1]` is its last element. -/
def ImageListing.save_name (l : ImageListing) : String :=
  let remote_file_name := (pySplit l.url '/').getLastD ""
  l.date ++ "_" ++ remote_file_name

/-- The parsed JSON body returned by the metadata endpoint.  The
string-valued keys live in `data`; the optional `"error"` key, whose value
is itself a JSON object, is kept apart (`"error" in dict` holds exactly
when `error` is `some`). -/
structure ApodResponse where
  data : List (String × String)
  error : Option (List (String × String))
deriving DecidableEq, Repr

/-- One observable side effect of the script, in program order. -/
inductive Event where
  | printed (s : String)
  | http_get_metadata (url : String)
  | http_get_image (url : String)
  | mkdir_parents (path : String)
  | write_bytes (path : String) (dat : List Nat)
  | write_text (path : String) (content : String)
  | symlink_to (link : String) (target : String)
  | run_script (script : String) (arg : String)
deriving DecidableEq, Repr

/-- The fixed metadata endpoint template (`api_url` in `get_image_listing`). -/
def api_url : String := "https://api.nasa.gov/planetary/apod?api_key="

/-- Function `get_image_listing(api_key)`: performs one GET on the metadata endpoint
(the event in the first component), and either raises or returns a listing.
If the body has an `"error"` key the function raises; the `Exception`
message embeds `dict["error"]["code"]`, and when the error object has no
`"code"` key that subscript itself raises `KeyError` (still a failure, with
a different message).  `requests.get` never returns `None`, so the
`None`-check branch is dead; the response body is the `resp` oracle. -/
def get_image_listing (api_key : String) (resp : ApodResponse) :
    List Event × Except String ImageListing :=
  ([Event.http_get_metadata (api_url ++ api_key)],
    match resp.error with
    | some errObj =>
      match errObj.lookup "code" with
      | some c =>
        Except.error ("API call was invalid but to the correct endpoint." ++
          " error returned [" ++ c ++ "]")
      | none => Except.error "KeyError: code"
    | none => Except.ok (ImageListing.from_api_resp_json resp.data))

/-- Function `get_image(image_listing)`: one GET on `image_listing.url`, returning
the raw bytes; the bytes are the `img_bytes` oracle. -/
def get_image (img_bytes : List Nat) (image_listing : ImageListing) :
    List Event × List Nat :=
  ([Event.http_get_image image_listing.url], img_bytes)

/-- Model of `Path(p).expanduser()` for the paths used here: a leading `~/` is
replaced by the home directory. -/
def expanduser (home : String) (p : String) : String :=
  if chListPre "~/".data p.data then home ++ String.mk (p.data.drop 1) else p

/-- Join character-list pieces with a separator (inverse of `splitChar`,
used to rebuild a name after dropping its extension). -/
def joinSep (c : Char) : List (List Char) → List Char
  | [] => []
  | [x] => x
  | x :: y :: t => x ++ c :: joinSep c (y :: t)

/-- The `pathlib` stem of a path NAME (its final component): the name with its
last dot-extension removed; a name without a dot, or a bare leading-dot
name like `".bashrc"`, has no extension. -/
def pyStem (name : String) : String :=
  let parts := splitChar '.' name.data
  if parts.length ≤ 1 then name
  else if chListPre ".".data name.data && parts.length == 2 then name
  else String.mk (joinSep '.' parts.dropLast)

/-- Model of `Path.with_suffix`: replace the extension of the final path component
(the part after the last `/`) with `suffix`. -/
def with_suffix (p : String) (suffix : String) : String :=
  let chars := p.data
  let name := (chars.reverse.takeWhile (fun c => !(c == '/'))).reverse
  let dir := (chars.reverse.dropWhile (fun c => !(c == '/'))).reverse
  String.mk (dir ++ (pyStem (String.mk name)).data ++ suffix.data)

/-- Validity of a suffix: `Path.with_suffix` raises `ValueError` unless the suffix is empty or
starts with a dot, is more than a bare dot, and has no path separator. -/
def valid_suffix (s : String) : Bool :=
  if s.data.contains '/' then false
  else if s == "" then true
  else if s == "." then false
  else chListPre ".".data s.data

/-- A call `mkdir(parents=True)` on path `p` creates directory `d` exactly when
`d` is `p` itself or an ancestor of `p` (a `/`-boundary prefix). -/
def createsDir (d : String) (p : String) : Bool :=
  d == p || chListPre (d ++ "/").data p.data

/-- Everything external that a run observes: configuration, the two network
responses, and the filesystem existence facts the run consults. -/
structure Env where
  home : String
  cwd : String
  api_key : Option String
  script_exists : Bool
  resp : ApodResponse
  img_bytes : List Nat
  save_location_exists : Bool
  links_dir_exists : Bool
  link_location_exists : Bool
deriving Repr

/-- The observable outcome of one run. -/
structure RunOutcome where
  events : List Event
  exit_code : Nat
deriving DecidableEq, Repr

/-- Entry point `main(api_key)`, line by line.  `save_location_exists` is the oracle
for `img_save_location.exists()`; the symlink call succeeds only if the
links directory exists and the link path does not (otherwise `os.symlink`
raises `FileNotFoundError` / `FileExistsError`, uncaught, so the run dies
there with the files already written).  Likewise an invalid computed
suffix makes `with_suffix` raise `ValueError`, uncaught. -/
def main (env : Env) : RunOutcome :=
  match env.api_key with
  | none => ⟨[Event.printed "No API key provided"], 1⟩
  | some api_key =>
    let wallpaper_script := env.cwd ++ "/setWallpaper.sh"
    if env.script_exists then
      let fetch := get_image_listing api_key env.resp
      let ev := Event.printed "Getting daily-image listing" :: fetch.1
      match fetch.2 with
      | Except.error e =>
        ⟨ev ++ [Event.printed ("Failed to get image listing: " ++ e)], 1⟩
      | Except.ok img_listing =>
        let ev := ev ++ [Event.printed ("\tTitle: " ++ img_listing.title)]
        if img_listing.is_image then
          let ev := ev ++ [Event.printed "Downloading image"]
          let images_save_dir := expanduser env.home "~/APOD"
          let links_save_dir := expanduser env.home "~/Pictures/APOD"
          let img_save_location := images_save_dir ++ "/" ++ img_listing.save_name
          let link_save_location := links_save_dir ++ "/" ++ img_listing.save_name
          if env.save_location_exists then
            let ev := ev ++ [Event.printed "The image does not need to be downloaded"]
            ⟨ev ++ [Event.printed "Setting wallpaper",
              Event.run_script wallpaper_script link_save_location], 0⟩
          else
            let ev := ev ++ [Event.mkdir_parents img_save_location]
            let dl := get_image env.img_bytes img_listing
            let ev := ev ++ dl.1
            let img_data := dl.2
            let img_file_extension := "." ++ (pySplit img_listing.url '.').getLastD ""
            if valid_suffix img_file_extension then
              let image_file := with_suffix (img_save_location ++ "/image") img_file_extension
              let ev := ev ++ [Event.write_bytes image_file img_data,
                Event.write_text (img_save_location ++ "/description.txt")
                  (img_listing.title ++ "\n\n" ++ img_listing.explanation ++ "\n")]
              if env.links_dir_exists && !env.link_location_exists then
                let ev := ev ++
                  [Event.symlink_to link_save_location (img_save_location ++ "/image")]
                ⟨ev ++ [Event.printed "Setting wallpaper",
                  Event.run_script wallpaper_script link_save_location], 0⟩
              else
                ⟨ev, 1⟩
            else
              ⟨ev, 1⟩
        else
          ⟨ev ++ [Event.printed "Not an image today"], 1⟩
    else
      ⟨[Event.printed "Wallpaper setting script not found"], 1⟩

/-- Recognise an image-endpoint GET event. -/
def Event.isImgGet : Event → Bool
  | .http_get_image _ => true
  | _ => false

/-- Recognise a metadata-endpoint GET event. -/
def Event.isMetaGet : Event → Bool
  | .http_get_metadata _ => true
  | _ => false

/-- Recognise an image-bytes write event. -/
def Event.isImgWrite : Event → Bool
  | .write_bytes _ _ => true
  | _ => false

/-- Recognise a text-file write event. -/
def Event.isTextWrite : Event → Bool
  | .write_text _ _ => true
  | _ => false

/-- Recognise a symlink-creation event. -/
def Event.isLink : Event → Bool
  | .symlink_to _ _ => true
  | _ => false

/-- Recognise a symlink-creation event at a given link location. -/
def Event.linkAt (p : String) : Event → Bool
  | .symlink_to l _ => l == p
  | _ => false

/-- Recognise a wallpaper-script invocation event. -/
def Event.isRun : Event → Bool
  | .run_script _ _ => true
  | _ => false

/-- The example metadata body from the specification:
`{"date":"2024-01-01","media_type":"image","title":"T","explanation":"E","hdurl":"http://x/y/pic.jpg"}`. -/
def exampleJson : List (String × String) :=
  [("date", "2024-01-01"), ("media_type", "image"), ("title", "T"),
   ("explanation", "E"), ("hdurl", "http://x/y/pic.jpg")]

/-- A fresh-download run on the example response: key present, script
present, no error key, save directory absent, links directory present. -/
def exampleEnv : Env :=
  { home := "/home/user"
    cwd := "/work"
    api_key := some "KEY"
    script_exists := true
    resp := { data := exampleJson, error := none }
    img_bytes := [1, 2, 3]
    save_location_exists := false
    links_dir_exists := true
    link_location_exists := false }

/-- C3: for every metadata response, `save_name` equals the date string, an
underscore, and the last path segment of the `hdurl` value; on the example
response (`date` 2024-01-01, `hdurl` http://x/y/pic.jpg) it equals
`2024-01-01_pic.jpg`. -/
theorem save_name_formula :
    (∀ json : List (String × String),
      (ImageListing.from_api_resp_json json).save_name =
        dictGet json "date" ++ "_" ++ (pySplit (dictGet json "hdurl") '/').getLastD "")
    ∧ (ImageListing.from_api_resp_json exampleJson).save_name = "2024-01-01_pic.jpg" :=
  ⟨fun _ => rfl, by decide⟩

/-- C4, counterexample: a listing with an empty `url` and date 2024-01-01
has `save_name` equal to `"2024-01-01_"`, which is defined and non-empty,
contradicting the claim that `save_name` is undefined or empty whenever
`url` is empty. -/
theorem empty_url_save_name_cex :
    (ImageListing.mk "2024-01-01" "" "" "" "").url = "" ∧
    (ImageListing.mk "2024-01-01" "" "" "" "").save_name = "2024-01-01_" ∧
    (ImageListing.mk "2024-01-01" "" "" "" "").save_name ≠ "" := by
  decide

/-- C4, amended: for every listing whose `url` field is the empty string,
`save_name` is still defined and equals the date followed by a bare
underscore (the remote-filename part is empty). -/
theorem empty_url_save_name (l : ImageListing) (h : l.url = "") :
    l.save_name = l.date ++ "_" := by
  simp [ImageListing.save_name, h, pySplit, splitChar]

/-- Witness for `empty_url_save_name` at a concrete listing. -/
theorem empty_url_save_name_witness :
    (ImageListing.mk "2024-01-01" "x" "y" "z" "").save_name = "2024-01-01" ++ "_" :=
  empty_url_save_name (ImageListing.mk "2024-01-01" "x" "y" "z" "") rfl

/-- C9: constructing a listing never fails, for any dictionary: each of the
fields `date`, `explanation`, `media_type`, `title`, `url` is the
value in the dictionary when the corresponding key (`"hdurl"` for `url`) is
present, and the empty string when it is absent. -/
theorem listing_from_json_total (d : List (String × String)) :
    ((∀ v, d.lookup "date" = some v → (ImageListing.from_api_resp_json d).date = v) ∧
      (d.lookup "date" = none → (ImageListing.from_api_resp_json d).date = "")) ∧
    ((∀ v, d.lookup "explanation" = some v →
        (ImageListing.from_api_resp_json d).explanation = v) ∧
      (d.lookup "explanation" = none → (ImageListing.from_api_resp_json d).explanation = "")) ∧
    ((∀ v, d.lookup "media_type" = some v →
        (ImageListing.from_api_resp_json d).media_type = v) ∧
      (d.lookup "media_type" = none → (ImageListing.from_api_resp_json d).media_type = "")) ∧
    ((∀ v, d.lookup "title" = some v → (ImageListing.from_api_resp_json d).title = v) ∧
      (d.lookup "title" = none → (ImageListing.from_api_resp_json d).title = "")) ∧
    ((∀ v, d.lookup "hdurl" = some v → (ImageListing.from_api_resp_json d).url = v) ∧
      (d.lookup "hdurl" = none → (ImageListing.from_api_resp_json d).url = "")) := by
  refine ⟨⟨fun v h => ?_, fun h => ?_⟩, ⟨fun v h => ?_, fun h => ?_⟩,
    ⟨fun v h => ?_, fun h => ?_⟩, ⟨fun v h => ?_, fun h => ?_⟩,
    ⟨fun v h => ?_, fun h => ?_⟩⟩ <;>
  simp [ImageListing.from_api_resp_json, dictGet, h]

/-- Witness for `listing_from_json_total`: on a singleton dictionary the
`url` field is the `"hdurl"` value, and on the empty dictionary the `date`
field is the empty string. -/
theorem listing_from_json_total_witness :
    (ImageListing.from_api_resp_json [("hdurl", "http://x/y/pic.jpg")]).url =
      "http://x/y/pic.jpg" ∧
    (ImageListing.from_api_resp_json []).date = "" :=
  ⟨(listing_from_json_total [("hdurl", "http://x/y/pic.jpg")]).2.2.2.2.1
      "http://x/y/pic.jpg" (by decide),
    (listing_from_json_total []).1.2 (by decide)⟩

/-- C6: for every metadata response whose body contains an `"error"` key,
`get_image_listing` fails instead of returning a listing; and whenever the
error object carries a `"code"`, the raised message is the fixed text with
that code embedded — in particular the code is a substring of the
message. -/
theorem error_key_fetch_fails (api_key : String) (resp : ApodResponse)
    (e : List (String × String)) (h : resp.error = some e) :
    (∃ m, (get_image_listing api_key resp).2 = Except.error m) ∧
    (∀ c, e.lookup "code" = some c →
      (get_image_listing api_key resp).2 =
        Except.error
          ("API call was invalid but to the correct endpoint. error returned ["
            ++ c ++ "]") ∧
      ∃ p q, (get_image_listing api_key resp).2 = Except.error (p ++ c ++ q)) := by
  constructor
  · cases hc : e.lookup "code" with
    | none => exact ⟨"KeyError: code", by simp [get_image_listing, h, hc]⟩
    | some c =>
      exact ⟨"API call was invalid but to the correct endpoint. error returned ["
        ++ c ++ "]", by simp [get_image_listing, h, hc]⟩
  · intro c hc
    constructor
    · simp [get_image_listing, h, hc]
    · exact ⟨"API call was invalid but to the correct endpoint. error returned [", "]",
        by simp [get_image_listing, h, hc]⟩

/-- Witness for `error_key_fetch_fails` at a concrete erroring response. -/
theorem error_key_fetch_fails_witness :
    (get_image_listing "KEY" ⟨[], some [("code", "API_KEY_INVALID")]⟩).2 =
      Except.error
        ("API call was invalid but to the correct endpoint. error returned ["
          ++ "API_KEY_INVALID" ++ "]") :=
  ((error_key_fetch_fails "KEY" ⟨[], some [("code", "API_KEY_INVALID")]⟩
      [("code", "API_KEY_INVALID")] rfl).2 "API_KEY_INVALID" (by decide)).1

/-- C5: on every run whose metadata response parses to a listing with
`media_type ≠ "image"`, the program performs no HTTP GET on the image
endpoint and exits with status 1. -/
theorem non_image_exits (env : Env)
    (h : (ImageListing.from_api_resp_json env.resp.data).media_type ≠ "image") :
    (main env).exit_code = 1 ∧ ∀ u, Event.http_get_image u ∉ (main env).events := by
  cases hk : env.api_key with
  | none => simp [main, hk]
  | some k =>
    cases hs : env.script_exists
    · simp [main, hk, hs]
    · cases he : env.resp.error with
      | some e =>
        cases hc : e.lookup "code" <;>
          simp [main, hk, hs, get_image_listing, he, hc]
      | none =>
        simp [main, hk, hs, get_image_listing, he, ImageListing.is_image, h]

/-- Witness for `non_image_exits`: a `media_type == "video"` day exits 1
with no image download. -/
theorem non_image_exits_witness :
    (main { exampleEnv with
      resp := { data := [("media_type", "video"), ("title", "T")], error := none } }).exit_code
      = 1 ∧
    Event.http_get_image "http://x/y/pic.jpg" ∉
      (main { exampleEnv with
        resp := { data := [("media_type", "video"), ("title", "T")], error := none } }).events :=
  ⟨(non_image_exits _ (by decide)).1, (non_image_exits _ (by decide)).2 _⟩

/-- C7: on every run where the computed save directory already exists, no
HTTP GET on the image endpoint is performed and no file, directory or
symlink is created. -/
theorem cached_no_side_effects (env : Env) (h : env.save_location_exists = true) :
    (∀ u, Event.http_get_image u ∉ (main env).events) ∧
    (∀ p d, Event.write_bytes p d ∉ (main env).events) ∧
    (∀ p c, Event.write_text p c ∉ (main env).events) ∧
    (∀ p, Event.mkdir_parents p ∉ (main env).events) ∧
    (∀ a b, Event.symlink_to a b ∉ (main env).events) := by
  cases hk : env.api_key with
  | none => simp [main, hk]
  | some k =>
    cases hs : env.script_exists
    · simp [main, hk, hs]
    · cases he : env.resp.error with
      | some e =>
        cases hc : e.lookup "code" <;>
          simp [main, hk, hs, get_image_listing, he, hc]
      | none =>
        by_cases him :
          (ImageListing.from_api_resp_json env.resp.data).media_type = "image"
        · simp [main, hk, hs, get_image_listing, he, ImageListing.is_image, him, h]
        · simp [main, hk, hs, get_image_listing, he, ImageListing.is_image, him]

/-- Witness for `cached_no_side_effects` at the example run with the save
directory already present. -/
theorem cached_no_side_effects_witness :
    Event.http_get_image "http://x/y/pic.jpg" ∉
      (main { exampleEnv with save_location_exists := true }).events ∧
    Event.symlink_to "/home/user/Pictures/APOD/2024-01-01_pic.jpg"
        "/home/user/APOD/2024-01-01_pic.jpg/image" ∉
      (main { exampleEnv with save_location_exists := true }).events :=
  ⟨(cached_no_side_effects _ (by decide)).1 _,
    (cached_no_side_effects _ (by decide)).2.2.2.2 _ _⟩

/-- C8: on every run where the API key is absent or the wallpaper script is
missing, the program prints a message and exits with status 1 without any
network activity (neither the metadata GET nor the image GET happens). -/
theorem missing_precondition_fail_fast (env : Env)
    (h : env.api_key = none ∨ env.script_exists = false) :
    (main env).exit_code = 1 ∧
    (∃ s, Event.printed s ∈ (main env).events) ∧
    (∀ u, Event.http_get_metadata u ∉ (main env).events) ∧
    (∀ u, Event.http_get_image u ∉ (main env).events) := by
  rcases h with h | h
  · simp [main, h]
  · cases hk : env.api_key with
    | none => simp [main, hk]
    | some k => simp [main, hk, h]

/-- Witness for `missing_precondition_fail_fast`: the example run with the
wallpaper script missing exits 1 and performs no metadata GET. -/
theorem missing_precondition_fail_fast_witness :
    (main { exampleEnv with script_exists := false }).exit_code = 1 ∧
    Event.http_get_metadata "https://api.nasa.gov/planetary/apod?api_key=KEY" ∉
      (main { exampleEnv with script_exists := false }).events :=
  ⟨(missing_precondition_fail_fast _ (Or.inr (by decide))).1,
    (missing_precondition_fail_fast _ (Or.inr (by decide))).2.2.1 _⟩

theorem takeWhile_append_stop {α : Type} (f : α → Bool) (xs : List α) (y : α)
    (ys : List α) (h1 : ∀ a ∈ xs, f a = true) (h2 : f y = false) :
    (xs ++ y :: ys).takeWhile f = xs := by
  induction xs with
  | nil => simp [List.takeWhile_cons, h2]
  | cons a as ih =>
    have ha := h1 a (List.mem_cons_self a as)
    simp [List.takeWhile_cons, ha, ih fun b hb => h1 b (List.mem_cons_of_mem a hb)]

theorem dropWhile_append_stop {α : Type} (f : α → Bool) (xs : List α) (y : α)
    (ys : List α) (h1 : ∀ a ∈ xs, f a = true) (h2 : f y = false) :
    (xs ++ y :: ys).dropWhile f = y :: ys := by
  induction xs with
  | nil => simp [List.dropWhile_cons, h2]
  | cons a as ih =>
    have ha := h1 a (List.mem_cons_self a as)
    simp [List.dropWhile_cons, ha, ih fun b hb => h1 b (List.mem_cons_of_mem a hb)]

/-- Applying `with_suffix` to a path whose final component is `image` (the only
shape the script builds) appends the suffix to the path. -/
theorem with_suffix_image (q suf : String) :
    with_suffix (q ++ "/image") suf = q ++ "/image" ++ suf := by
  apply String.ext
  have hdata : (q ++ "/image").data = q.data ++ ('/' :: ['i', 'm', 'a', 'g', 'e']) := by
    rw [String.data_append]
  have hrev : (q ++ "/image").data.reverse =
      ['e', 'g', 'a', 'm', 'i'] ++ '/' :: q.data.reverse := by
    rw [hdata, List.reverse_append]; rfl
  have htake : ((q ++ "/image").data.reverse.takeWhile fun c => !(c == '/')) =
      ['e', 'g', 'a', 'm', 'i'] := by
    rw [hrev]
    exact takeWhile_append_stop _ _ _ _ (by decide) (by decide)
  have hdrop : ((q ++ "/image").data.reverse.dropWhile fun c => !(c == '/')) =
      '/' :: q.data.reverse := by
    rw [hrev]
    exact dropWhile_append_stop _ _ _ _ (by decide) (by decide)
  show ((q ++ "/image").data.reverse.dropWhile fun c => !(c == '/')).reverse ++
      (pyStem (String.mk
        ((q ++ "/image").data.reverse.takeWhile fun c => !(c == '/')).reverse)).data ++
      suf.data = (q ++ "/image" ++ suf).data
  rw [htake, hdrop]
  have hstem : pyStem (String.mk (['e', 'g', 'a', 'm', 'i'].reverse)) = "image" := by decide
  rw [hstem]
  simp [String.data_append, List.append_assoc]

/-- Test `chListPre` ignores a shared prefix. -/
theorem chListPre_append_same (a x y : List Char) :
    chListPre (a ++ x) (a ++ y) = chListPre x y := by
  induction a with
  | nil => rfl
  | cons c cs ih => simp [chListPre, ih]

/-- The `mkdir(parents=True)` call on the save location `{home}/APOD/{save_name}`
never creates the links directory `{home}/Pictures/APOD`: the latter is
neither that path nor an ancestor of it. -/
theorem links_dir_not_created (h s : String) :
    createsDir (h ++ "/Pictures/APOD") (h ++ "/APOD" ++ "/" ++ s) = false := by
  have eAPOD : (h ++ "/APOD" ++ "/" ++ s).data =
      h.data ++ ('/' :: 'A' :: 'P' :: 'O' :: 'D' :: '/' :: s.data) := by
    simp [String.data_append]
  have ePict : (h ++ "/Pictures/APOD" ++ "/").data =
      h.data ++ ('/' :: 'P' :: "ictures/APOD/".data) := by
    simp [String.data_append]
  unfold createsDir
  apply Bool.or_eq_false_iff.mpr
  constructor
  · apply beq_eq_false_iff_ne.mpr
    intro hEq
    have hd := congrArg String.data hEq
    simp [String.data_append] at hd
  · have : (h ++ "/Pictures/APOD" ++ "/") = (h ++ "/Pictures/APOD") ++ "/" := rfl
    rw [← this, ePict, eAPOD, chListPre_append_same]
    simp [chListPre]

theorem expanduser_APOD (h : String) : expanduser h "~/APOD" = h ++ "/APOD" := rfl

theorem expanduser_Pictures (h : String) :
    expanduser h "~/Pictures/APOD" = h ++ "/Pictures/APOD" := rfl

/-- On a fresh-download run (key and script present, no API error, image
media type, save directory absent, links directory present, link path
free, valid computed suffix) the whole trace and exit code of `main`,
explicitly. -/
theorem main_fresh_eq (env : Env) (k : String) (l : ImageListing)
    (hk : env.api_key = some k) (hs : env.script_exists = true)
    (he : env.resp.error = none)
    (hl : ImageListing.from_api_resp_json env.resp.data = l)
    (him : l.media_type = "image") (hsd : env.save_location_exists = false)
    (hld : env.links_dir_exists = true) (hll : env.link_location_exists = false)
    (hx : valid_suffix ("." ++ (pySplit l.url '.').getLastD "") = true) :
    main env = ⟨[Event.printed "Getting daily-image listing",
      Event.http_get_metadata (api_url ++ k),
      Event.printed ("\tTitle: " ++ l.title),
      Event.printed "Downloading image",
      Event.mkdir_parents (env.home ++ "/APOD" ++ "/" ++ l.save_name),
      Event.http_get_image l.url,
      Event.write_bytes (env.home ++ "/APOD" ++ "/" ++ l.save_name ++ "/image" ++
        ("." ++ (pySplit l.url '.').getLastD "")) env.img_bytes,
      Event.write_text (env.home ++ "/APOD" ++ "/" ++ l.save_name ++ "/description.txt")
        (l.title ++ "\n\n" ++ l.explanation ++ "\n"),
      Event.symlink_to (env.home ++ "/Pictures/APOD" ++ "/" ++ l.save_name)
        (env.home ++ "/APOD" ++ "/" ++ l.save_name ++ "/image"),
      Event.printed "Setting wallpaper",
      Event.run_script (env.cwd ++ "/setWallpaper.sh")
        (env.home ++ "/Pictures/APOD" ++ "/" ++ l.save_name)], 0⟩ := by
  rw [List.getLastD_eq_getLast?] at hx
  simp [main, hk, hs, get_image_listing, he, hl, ImageListing.is_image, him, hsd,
    hld, hll, hx, get_image, with_suffix_image, expanduser_APOD, expanduser_Pictures]

/-- C2, amended: a fresh-download run writes the image to
`{home}/APOD/{save_name}/image.{ext}` and the description to
`{home}/APOD/{save_name}/description.txt`, and creates one symlink located
at `{home}/Pictures/APOD/{save_name}` (not `.../{save_name}/image`) whose
target is `{home}/APOD/{save_name}/image` — a path without the extension,
not the image file that was written. -/
theorem fresh_run_persisted_paths (env : Env) (k : String) (l : ImageListing)
    (hk : env.api_key = some k) (hs : env.script_exists = true)
    (he : env.resp.error = none)
    (hl : ImageListing.from_api_resp_json env.resp.data = l)
    (him : l.media_type = "image") (hsd : env.save_location_exists = false)
    (hld : env.links_dir_exists = true) (hll : env.link_location_exists = false)
    (hx : valid_suffix ("." ++ (pySplit l.url '.').getLastD "") = true) :
    Event.write_bytes (env.home ++ "/APOD" ++ "/" ++ l.save_name ++ "/image" ++
        ("." ++ (pySplit l.url '.').getLastD "")) env.img_bytes ∈ (main env).events ∧
    Event.write_text (env.home ++ "/APOD" ++ "/" ++ l.save_name ++ "/description.txt")
        (l.title ++ "\n\n" ++ l.explanation ++ "\n") ∈ (main env).events ∧
    ((main env).events.countP Event.isLink = 1) ∧
    Event.symlink_to (env.home ++ "/Pictures/APOD" ++ "/" ++ l.save_name)
        (env.home ++ "/APOD" ++ "/" ++ l.save_name ++ "/image") ∈ (main env).events := by
  rw [main_fresh_eq env k l hk hs he hl him hsd hld hll hx]
  refine ⟨by simp, by simp, ?_, by simp⟩
  simp [List.countP_cons, Event.isLink]

/-- Witness for `fresh_run_persisted_paths` on the example run. -/
theorem fresh_run_persisted_paths_witness :
    Event.write_bytes "/home/user/APOD/2024-01-01_pic.jpg/image.jpg" [1, 2, 3] ∈
      (main exampleEnv).events ∧
    Event.write_text "/home/user/APOD/2024-01-01_pic.jpg/description.txt" "T\n\nE\n" ∈
      (main exampleEnv).events ∧
    ((main exampleEnv).events.countP Event.isLink = 1) ∧
    Event.symlink_to "/home/user/Pictures/APOD/2024-01-01_pic.jpg"
      "/home/user/APOD/2024-01-01_pic.jpg/image" ∈ (main exampleEnv).events :=
  fresh_run_persisted_paths exampleEnv "KEY"
    (ImageListing.mk "2024-01-01" "E" "image" "T" "http://x/y/pic.jpg")
    rfl rfl rfl (by decide) rfl rfl rfl rfl (by decide)

/-- C1, evaluated at the failing input (the example fresh-download run):
exactly one image file, one description file with content `T\n\nE\n`, and
one symlink are created, but the target of that symlink is
`.../2024-01-01_pic.jpg/image`, which is not the image file
`.../2024-01-01_pic.jpg/image.jpg` that was written. -/
theorem symlink_misses_extension_eval :
    ((main exampleEnv).events.countP Event.isImgWrite = 1) ∧
    Event.write_bytes "/home/user/APOD/2024-01-01_pic.jpg/image.jpg" [1, 2, 3] ∈
      (main exampleEnv).events ∧
    ((main exampleEnv).events.countP Event.isTextWrite = 1) ∧
    Event.write_text "/home/user/APOD/2024-01-01_pic.jpg/description.txt" "T\n\nE\n" ∈
      (main exampleEnv).events ∧
    ((main exampleEnv).events.countP Event.isLink = 1) ∧
    Event.symlink_to "/home/user/Pictures/APOD/2024-01-01_pic.jpg"
      "/home/user/APOD/2024-01-01_pic.jpg/image" ∈ (main exampleEnv).events ∧
    "/home/user/APOD/2024-01-01_pic.jpg/image" ≠
      "/home/user/APOD/2024-01-01_pic.jpg/image.jpg" := by
  decide

/-- C2, counterexample: on the example run no symlink is created at the
claimed location `~/Pictures/APOD/{save_name}/image`; the single symlink
sits at `~/Pictures/APOD/{save_name}` itself, and its target is the
extension-less `~/APOD/{save_name}/image`, not the written image file. -/
theorem persisted_paths_cex :
    ((main exampleEnv).events.countP
      (Event.linkAt "/home/user/Pictures/APOD/2024-01-01_pic.jpg/image") = 0) ∧
    ((main exampleEnv).events.countP
      (Event.linkAt "/home/user/Pictures/APOD/2024-01-01_pic.jpg") = 1) ∧
    Event.symlink_to "/home/user/Pictures/APOD/2024-01-01_pic.jpg"
      "/home/user/APOD/2024-01-01_pic.jpg/image" ∈ (main exampleEnv).events := by
  decide

/-- On a fresh-download run with the links directory absent, the whole
trace and exit code of `main`, explicitly: the run dies at the symlink
step after both files are written. -/
theorem main_crash_eq (env : Env) (k : String) (l : ImageListing)
    (hk : env.api_key = some k) (hs : env.script_exists = true)
    (he : env.resp.error = none)
    (hl : ImageListing.from_api_resp_json env.resp.data = l)
    (him : l.media_type = "image") (hsd : env.save_location_exists = false)
    (hld : env.links_dir_exists = false)
    (hx : valid_suffix ("." ++ (pySplit l.url '.').getLastD "") = true) :
    main env = ⟨[Event.printed "Getting daily-image listing",
      Event.http_get_metadata (api_url ++ k),
      Event.printed ("\tTitle: " ++ l.title),
      Event.printed "Downloading image",
      Event.mkdir_parents (env.home ++ "/APOD" ++ "/" ++ l.save_name),
      Event.http_get_image l.url,
      Event.write_bytes (env.home ++ "/APOD" ++ "/" ++ l.save_name ++ "/image" ++
        ("." ++ (pySplit l.url '.').getLastD "")) env.img_bytes,
      Event.write_text (env.home ++ "/APOD" ++ "/" ++ l.save_name ++ "/description.txt")
        (l.title ++ "\n\n" ++ l.explanation ++ "\n")], 1⟩ := by
  rw [List.getLastD_eq_getLast?] at hx
  simp [main, hk, hs, get_image_listing, he, hl, ImageListing.is_image, him, hsd,
    hld, hx, get_image, with_suffix_image, expanduser_APOD, expanduser_Pictures]

/-- C10: the script never creates the links directory
`{home}/Pictures/APOD` (its only `mkdir` call targets the save location
under `{home}/APOD`, which the links directory neither equals nor is an
ancestor of); so on a fresh-download run where the links directory does
not exist, the symlink step raises an uncaught error after the image and
description files have been written, and the run exits non-zero with no
symlink created and the wallpaper script never invoked. -/
theorem links_dir_missing_crash (env : Env) (k : String) (l : ImageListing)
    (hk : env.api_key = some k) (hs : env.script_exists = true)
    (he : env.resp.error = none)
    (hl : ImageListing.from_api_resp_json env.resp.data = l)
    (him : l.media_type = "image") (hsd : env.save_location_exists = false)
    (hld : env.links_dir_exists = false)
    (hx : valid_suffix ("." ++ (pySplit l.url '.').getLastD "") = true) :
    (main env).exit_code = 1 ∧
    Event.write_bytes (env.home ++ "/APOD" ++ "/" ++ l.save_name ++ "/image" ++
        ("." ++ (pySplit l.url '.').getLastD "")) env.img_bytes ∈ (main env).events ∧
    Event.write_text (env.home ++ "/APOD" ++ "/" ++ l.save_name ++ "/description.txt")
        (l.title ++ "\n\n" ++ l.explanation ++ "\n") ∈ (main env).events ∧
    (∀ a b, Event.symlink_to a b ∉ (main env).events) ∧
    (∀ sc a, Event.run_script sc a ∉ (main env).events) ∧
    (∀ p, Event.mkdir_parents p ∈ (main env).events →
      createsDir (env.home ++ "/Pictures/APOD") p = false) := by
  rw [main_crash_eq env k l hk hs he hl him hsd hld hx]
  refine ⟨rfl, by simp, by simp, by simp, by simp, ?_⟩
  intro p hp
  simp at hp
  subst hp
  exact links_dir_not_created env.home l.save_name

/-- Witness for `links_dir_missing_crash` on the example run with the
links directory absent. -/
theorem links_dir_missing_crash_witness :
    (main { exampleEnv with links_dir_exists := false }).exit_code = 1 ∧
    Event.write_bytes "/home/user/APOD/2024-01-01_pic.jpg/image.jpg" [1, 2, 3] ∈
      (main { exampleEnv with links_dir_exists := false }).events ∧
    Event.write_text "/home/user/APOD/2024-01-01_pic.jpg/description.txt" "T\n\nE\n" ∈
      (main { exampleEnv with links_dir_exists := false }).events ∧
    Event.symlink_to "/home/user/Pictures/APOD/2024-01-01_pic.jpg"
        "/home/user/APOD/2024-01-01_pic.jpg/image" ∉
      (main { exampleEnv with links_dir_exists := false }).events ∧
    Event.run_script "/work/setWallpaper.sh" "/home/user/Pictures/APOD/2024-01-01_pic.jpg" ∉
      (main { exampleEnv with links_dir_exists := false }).events :=
  have h := links_dir_missing_crash { exampleEnv with links_dir_exists := false } "KEY"
    (ImageListing.mk "2024-01-01" "E" "image" "T" "http://x/y/pic.jpg")
    rfl rfl rfl (by decide) rfl rfl rfl (by decide)
  ⟨h.1, h.2.1, h.2.2.1, h.2.2.2.1 _ _, h.2.2.2.2.1 _ _⟩

end Apod
